import Mathlib

/-!
Verification of the EtherCAT EoE "set IP parameter" state machine
(`master/fsm_eoe.c`).

The C module is embedded shallowly:

* `EcDatagram` models the transport slot (`ec_datagram_t`) through the four
  fields the FSM reads: its lifecycle state, its working counter, and its
  send/receive timestamps (jiffies).
* `EoeRequest` models `ec_eoe_request_t`.  The four IPv4-family fields are
  kept as their 4-byte in-memory representation (the source's comment at
  `memcpy_swap32`, lines 57-63, notes that `struct in_addr` is stored
  big-endian; the encoder only ever copies the raw bytes).
* `EoeFsm` models `ec_fsm_eoe_t`.  The C stores the current state as a
  function pointer; here it is the enumeration `EoeState`, with
  `EoeState.null_state` standing for the `NULL` pointer written by the
  constructor.  The C `slave` and `request` pointers are embedded by value;
  the `NULL` pointers written by `ec_fsm_eoe_init` are modelled by the
  all-empty `emptySlave` / `emptyRequest` (no handler ever runs before
  `ec_fsm_eoe_set_ip_param` installs real ones in a driven run).
* The external mailbox/transport collaborators
  (`ec_slave_mbox_prepare_send`, `ec_slave_mbox_check`,
  `ec_slave_mbox_fetch`, the kernel clock `jiffies`) are oracles, packed
  into `MboxEnv`; the mailbox operation a handler arms on the fresh
  datagram is reported as an `MboxAction`.
* Every handler is a pure function `EoeFsm → MboxEnv → EoeFsm × MboxAction`
  mirroring the C statement by statement; `ec_fsm_eoe_exec` mirrors the
  per-cycle entry point, returning the `datagram_used` flag.

Counters (`retries`, `frame_type_retries`) are `unsigned int` in the C; the
post-decrement that the C applies even when the tested value is zero is
modelled by `udec`, a decrement that wraps at 2^32.
-/

/-- Transport slot lifecycle states (`ec_datagram_state_t`), as listed by the
spec for the slot interface: Init, Queued, Sent, Received, TimedOut. -/
inductive EcDatagramState
  | init
  | queued
  | sent
  | received
  | timed_out
deriving DecidableEq, Repr

/-- The fields of `ec_datagram_t` that the FSM reads. -/
structure EcDatagram where
  state : EcDatagramState
  working_counter : Nat
  jiffies_sent : Nat
  jiffies_received : Nat
deriving DecidableEq, Repr

/-- Placeholder datagram used where the C dereferences `fsm->datagram`
unconditionally; the driving contract guarantees the pointer is non-NULL
whenever those handlers run. -/
def dgNull : EcDatagram :=
  { state := .init, working_counter := 0, jiffies_sent := 0, jiffies_received := 0 }

/-- Modelled from the spec: the slave structure (`master/slave.h`) is not part
of this file; the FSM consumes only its EoE capability flag
(`slave->sii.mailbox_protocols & EC_MBOX_EOE`, line 271), exposed by the spec
as `supports_eoe_mailbox : bool`. -/
structure EoeSlave where
  supports_eoe_mailbox : Bool
deriving DecidableEq, Repr

/-- `ec_eoe_request_t`.  Address fields hold their 4-byte in-memory
representation (big-endian per the source comment at lines 57-63); `mac_address`
holds 6 bytes and `name` holds `EC_MAX_HOSTNAME_SIZE` bytes. -/
structure EoeRequest where
  mac_address : List Nat
  mac_address_included : Bool
  ip_address : List Nat
  ip_address_included : Bool
  subnet_mask : List Nat
  subnet_mask_included : Bool
  gateway : List Nat
  gateway_included : Bool
  dns : List Nat
  dns_included : Bool
  name : List Nat
  name_included : Bool
  result : Nat
  jiffies_sent : Nat
deriving DecidableEq, Repr

/-- The all-zero request, modelling the `NULL` request pointer written by the
constructor (no handler dereferences it before a real request is installed). -/
def emptyRequest : EoeRequest :=
  { mac_address := [], mac_address_included := false
    ip_address := [], ip_address_included := false
    subnet_mask := [], subnet_mask_included := false
    gateway := [], gateway_included := false
    dns := [], dns_included := false
    name := [], name_included := false
    result := 0, jiffies_sent := 0 }

/-- The empty slave, modelling the `NULL` slave pointer written by the
constructor. -/
def emptySlave : EoeSlave := { supports_eoe_mailbox := false }

/-- FSM states.  The C dispatches through a function pointer; each
constructor names the handler the pointer would hold, `null_state` standing
for `NULL` (the constructor's value). -/
inductive EoeState
  | null_state
  | set_ip_start
  | set_ip_request
  | set_ip_check
  | set_ip_response
  | end_state
  | error_state
deriving DecidableEq, Repr

/-- `ec_fsm_eoe_t`. -/
structure EoeFsm where
  slave : EoeSlave
  retries : Nat
  state : EoeState
  datagram : Option EcDatagram
  jiffies_start : Nat
  request : EoeRequest
  frame_type_retries : Nat
deriving DecidableEq, Repr

/-- Result of a successful `ec_slave_mbox_fetch`: the mailbox protocol tag and
the payload bytes (`rec_size` is the payload length). -/
structure MboxFetched where
  mbox_prot : Nat
  data : List Nat
deriving DecidableEq, Repr

/-- Per-cycle oracle for the external collaborators: the kernel clock
`jiffies` (`now`), whether `ec_slave_mbox_prepare_send` can allocate a send
buffer, the verdict of `ec_slave_mbox_check` on the stored datagram, and the
outcome of `ec_slave_mbox_fetch` (`none` models `IS_ERR`). -/
structure MboxEnv where
  now : Nat
  prepare_send_ok : Bool
  has_data : Bool
  fetch : Option MboxFetched
deriving DecidableEq, Repr

/-- The mailbox operation a handler arms on the fresh datagram during one
invocation: nothing, a prepared send carrying a payload, a mailbox check, or a
mailbox fetch. -/
inductive MboxAction
  | idle
  | send (payload : List Nat)
  | check
  | fetch
deriving DecidableEq, Repr

/-! ### External constants -/

/-- `EC_EOE_RESPONSE_TIMEOUT` (line 38): maximum wait for a set-IP response,
in milliseconds. -/
def EC_EOE_RESPONSE_TIMEOUT : Nat := 3000

/-- Modelled from the spec: `EC_FSM_RETRIES` lives in `master/globals.h`,
which is not part of this file; the spec calls it "the configured retry count
(a small fixed constant, e.g. 3)". -/
def EC_FSM_RETRIES : Nat := 3

/-- Modelled from the spec: the EoE frame-type constants live in the mailbox
headers, not in this file; the spec gives `type = 0x02` for the SET_IP_REQUEST
class. -/
def EC_EOE_FRAMETYPE_SET_IP_REQ : Nat := 2

/-- Modelled from the spec: `frame_type_nibble = 0x03` (SET_IP_RESPONSE
class). -/
def EC_EOE_FRAMETYPE_SET_IP_RES : Nat := 3

/-- Modelled from the spec: the EoE mailbox protocol tag (`EC_MBOX_TYPE_EOE`,
from `mailbox.h`, not in this file); only its equality with the fetched tag is
ever consumed. -/
def EC_MBOX_TYPE_EOE : Nat := 2

/-- Modelled from the spec: MAC addresses are 6 bytes (`mac_address:
[6]byte`); `ETH_ALEN` is the kernel constant. -/
def ETH_ALEN : Nat := 6

/-- Modelled from the spec: the hostname field is fixed-width
(`name: [32]byte`); `EC_MAX_HOSTNAME_SIZE` is the external configuration
constant the spec calls `HOSTNAME_FIELD_SIZE`. -/
def EC_MAX_HOSTNAME_SIZE : Nat := 32

/-- Modelled from the spec: the kernel tick rate `HZ`; jiffies differences are
converted to milliseconds as `diff * 1000 / HZ`.  The concrete value never
matters to the claims, which constrain the converted value. -/
def HZ : Nat := 1000

/-- Post-decrement of an `unsigned int` counter: the C's `fsm->retries--` and
`fsm->frame_type_retries--` decrement even when the tested value is zero,
wrapping at 2^32: zero wraps to `UINT_MAX = 2^32 - 1`, any other value drops
by one (on the u32 range this is `(n + 2^32 - 1) % 2^32`; see
`udec_eq_mod`). -/
def udec : Nat → Nat
  | 0 => 4294967295
  | n + 1 => n

/-! ### Byte helpers -/

/-- `EC_READ_U8(data + i)`: one byte read. -/
def EC_READ_U8 (data : List Nat) (i : Nat) : Nat := data.getD i 0 % 256

/-- `EC_READ_U16(data + i)`: little-endian 16-bit read. -/
def EC_READ_U16 (data : List Nat) (i : Nat) : Nat :=
  data.getD i 0 % 256 + 256 * (data.getD (i + 1) 0 % 256)

/-- The four bytes `EC_WRITE_U32` stores: little-endian. -/
def EC_WRITE_U32 (x : Nat) : List Nat :=
  [x % 256, x / 256 % 256, x / 65536 % 256, x / 16777216 % 256]

/-- `memcpy(dst, src, n)` modelled as the list of the `n` bytes read from
`src`. -/
def memBytes (n : Nat) (src : List Nat) : List Nat :=
  (List.range n).map (fun i => src.getD i 0)

/-- `memcpy_swap32` (lines 65-71): architecture-independent 4-byte reversal,
`dst[i] = src[3 - i]` for `i < 4`. -/
def memcpy_swap32 (src : List Nat) : List Nat :=
  (List.range 4).map (fun i => src.getD (3 - i) 0)

/-- Big-endian 4-byte image of a 32-bit value (how `struct in_addr` stores it,
per the source comment at lines 57-63). -/
def beBytes (x : Nat) : List Nat :=
  [x / 16777216 % 256, x / 65536 % 256, x / 256 % 256, x % 256]

/-- Recombine a big-endian 4-byte image into the 32-bit value. -/
def beVal (l : List Nat) : Nat :=
  ((l.getD 0 0 * 256 + l.getD 1 0) * 256 + l.getD 2 0) * 256 + l.getD 3 0

/-! ### Constructor, destructor, begin -/

/-- `ec_fsm_eoe_init` (lines 77-88): the constructor overwrites every field of
the context, so it is modelled as the initial context it produces. -/
def ec_fsm_eoe_init : EoeFsm :=
  { slave := emptySlave
    retries := 0
    state := .null_state
    datagram := none
    jiffies_start := 0
    request := emptyRequest
    frame_type_retries := 0 }

/-- `ec_fsm_eoe_set_ip_param` (lines 104-113): installs the slave and the
request and sets the state to START; it touches nothing else. -/
def ec_fsm_eoe_set_ip_param (fsm : EoeFsm) (slave : EoeSlave)
    (request : EoeRequest) : EoeFsm :=
  { fsm with slave := slave, request := request, state := .set_ip_start }

/-- `ec_fsm_eoe_success` (lines 156-159). -/
def ec_fsm_eoe_success (fsm : EoeFsm) : Bool :=
  fsm.state = .end_state

/-! ### Request encoder -/

/-- The inclusion bitmask written at bytes 4..8 (lines 207-214). -/
def setIpFlags (req : EoeRequest) : Nat :=
  ((if req.mac_address_included then 1 else 0) <<< 0) |||
  ((if req.ip_address_included then 1 else 0) <<< 1) |||
  ((if req.subnet_mask_included then 1 else 0) <<< 2) |||
  ((if req.gateway_included then 1 else 0) <<< 3) |||
  ((if req.dns_included then 1 else 0) <<< 4) |||
  ((if req.name_included then 1 else 0) <<< 5)

/-- The header bytes written at offset 0 (lines 203-205): the SET_IP_REQUEST
frame type followed by the three reserved zero bytes. -/
def setIpHeadBytes : List Nat := [EC_EOE_FRAMETYPE_SET_IP_REQ, 0, 0, 0]

/-- Bytes 8..14: the MAC address copied verbatim when included (lines
218-221), otherwise the zeros left by the `memset`. -/
def macSeg (req : EoeRequest) : List Nat :=
  if req.mac_address_included then memBytes ETH_ALEN req.mac_address
  else List.replicate ETH_ALEN 0

/-- Bytes 14..18: the IP address byte-swapped when included (lines 223-226),
otherwise zeros. -/
def ipSeg (req : EoeRequest) : List Nat :=
  if req.ip_address_included then memcpy_swap32 req.ip_address
  else List.replicate 4 0

/-- Bytes 18..22: the subnet mask byte-swapped when included (lines 228-231),
otherwise zeros. -/
def subnetSeg (req : EoeRequest) : List Nat :=
  if req.subnet_mask_included then memcpy_swap32 req.subnet_mask
  else List.replicate 4 0

/-- Bytes 22..26: the gateway byte-swapped when included (lines 233-236),
otherwise zeros. -/
def gatewaySeg (req : EoeRequest) : List Nat :=
  if req.gateway_included then memcpy_swap32 req.gateway
  else List.replicate 4 0

/-- Bytes 26..30: the DNS server byte-swapped when included (lines 238-241),
otherwise zeros. -/
def dnsSeg (req : EoeRequest) : List Nat :=
  if req.dns_included then memcpy_swap32 req.dns
  else List.replicate 4 0

/-- The final `EC_MAX_HOSTNAME_SIZE` bytes: the hostname copied verbatim when
included (lines 243-246), otherwise zeros. -/
def nameSeg (req : EoeRequest) : List Nat :=
  if req.name_included then memBytes EC_MAX_HOSTNAME_SIZE req.name
  else List.replicate EC_MAX_HOSTNAME_SIZE 0

/-- The payload `ec_fsm_eoe_prepare_set` writes into the mailbox send buffer
(lines 199-246): the buffer is zeroed, the header and flag word written, and
each field copied into its fixed slot only when included. -/
def ec_fsm_eoe_set_ip_data (req : EoeRequest) : List Nat :=
  setIpHeadBytes ++
  (EC_WRITE_U32 (setIpFlags req) ++
  (macSeg req ++
  (ipSeg req ++
  (subnetSeg req ++
  (gatewaySeg req ++
  (dnsSeg req ++
  nameSeg req))))))

/-- `ec_fsm_eoe_prepare_set` (lines 169-256): on a successful
`ec_slave_mbox_prepare_send` the payload is written and
`request->jiffies_sent` is set to the current jiffies; an allocation failure
(`IS_ERR`) is reported as `none` with nothing touched. -/
def ec_fsm_eoe_prepare_set (fsm : EoeFsm) (env : MboxEnv) :
    Option (EoeFsm × List Nat) :=
  if env.prepare_send_ok then
    some ({ fsm with request := { fsm.request with jiffies_sent := env.now } },
          ec_fsm_eoe_set_ip_data fsm.request)
  else
    none

/-! ### State handlers -/

/-- `ec_fsm_eoe_set_ip_start` (lines 262-284). -/
def ec_fsm_eoe_set_ip_start (fsm : EoeFsm) (env : MboxEnv) :
    EoeFsm × MboxAction :=
  if !fsm.slave.supports_eoe_mailbox then
    ({ fsm with state := .error_state }, .idle)
  else
    match ec_fsm_eoe_prepare_set fsm env with
    | none => ({ fsm with state := .error_state }, .idle)
    | some (fsm1, payload) =>
        ({ fsm1 with retries := EC_FSM_RETRIES, state := .set_ip_request },
         .send payload)

/-- `ec_fsm_eoe_set_ip_request` (lines 290-337). -/
def ec_fsm_eoe_set_ip_request (fsm : EoeFsm) (env : MboxEnv) :
    EoeFsm × MboxAction :=
  let d := fsm.datagram.getD dgNull
  if d.state = .timed_out ∧ fsm.retries ≠ 0 then
    let fsm1 := { fsm with retries := udec fsm.retries }
    match ec_fsm_eoe_prepare_set fsm1 env with
    | none => ({ fsm1 with state := .error_state }, .idle)
    | some (fsm2, payload) => (fsm2, .send payload)
  else
    let fsm := if d.state = .timed_out then { fsm with retries := udec fsm.retries }
               else fsm
    if d.state ≠ .received then
      ({ fsm with state := .error_state }, .idle)
    else if d.working_counter ≠ 1 then
      if d.working_counter = 0 ∧
          (env.now - fsm.request.jiffies_sent) * 1000 / HZ <
            EC_EOE_RESPONSE_TIMEOUT then
        match ec_fsm_eoe_prepare_set fsm env with
        | none => ({ fsm with state := .error_state }, .idle)
        | some (fsm2, payload) => (fsm2, .send payload)
      else
        ({ fsm with state := .error_state }, .idle)
    else
      ({ fsm with jiffies_start := d.jiffies_sent,
                  retries := EC_FSM_RETRIES,
                  state := .set_ip_check,
                  frame_type_retries := 10 }, .check)

/-- `ec_fsm_eoe_set_ip_check` (lines 343-390). -/
def ec_fsm_eoe_set_ip_check (fsm : EoeFsm) (env : MboxEnv) :
    EoeFsm × MboxAction :=
  let d := fsm.datagram.getD dgNull
  if d.state = .timed_out ∧ fsm.retries ≠ 0 then
    ({ fsm with retries := udec fsm.retries }, .check)
  else
    let fsm := if d.state = .timed_out then { fsm with retries := udec fsm.retries }
               else fsm
    if d.state ≠ .received then
      ({ fsm with state := .error_state }, .idle)
    else if d.working_counter ≠ 1 then
      ({ fsm with state := .error_state }, .idle)
    else if !env.has_data then
      if (d.jiffies_received - fsm.jiffies_start) * 1000 / HZ ≥
          EC_EOE_RESPONSE_TIMEOUT then
        ({ fsm with state := .error_state }, .idle)
      else
        ({ fsm with retries := EC_FSM_RETRIES }, .check)
    else
      ({ fsm with retries := EC_FSM_RETRIES, state := .set_ip_response },
       .fetch)

/-- `ec_fsm_eoe_set_ip_response` (lines 396-485). -/
def ec_fsm_eoe_set_ip_response (fsm : EoeFsm) (env : MboxEnv) :
    EoeFsm × MboxAction :=
  let d := fsm.datagram.getD dgNull
  if d.state = .timed_out ∧ fsm.retries ≠ 0 then
    ({ fsm with retries := udec fsm.retries }, .fetch)
  else
    let fsm := if d.state = .timed_out then { fsm with retries := udec fsm.retries }
               else fsm
    if d.state ≠ .received then
      ({ fsm with state := .error_state }, .idle)
    else if d.working_counter ≠ 1 then
      ({ fsm with state := .error_state }, .idle)
    else
      match env.fetch with
      | none => ({ fsm with state := .error_state }, .idle)
      | some f =>
        if f.mbox_prot ≠ EC_MBOX_TYPE_EOE then
          ({ fsm with state := .error_state }, .idle)
        else if f.data.length < 4 then
          ({ fsm with state := .error_state }, .idle)
        else if EC_READ_U8 f.data 0 % 16 ≠ EC_EOE_FRAMETYPE_SET_IP_RES then
          if fsm.frame_type_retries ≠ 0 then
            ({ fsm with frame_type_retries := udec fsm.frame_type_retries,
                        jiffies_start := d.jiffies_sent,
                        retries := EC_FSM_RETRIES,
                        state := .set_ip_check }, .check)
          else
            ({ fsm with frame_type_retries := udec fsm.frame_type_retries,
                        state := .error_state }, .idle)
        else
          let result := EC_READ_U16 f.data 2
          let fsm := { fsm with request := { fsm.request with result := result } }
          if result ≠ 0 then
            ({ fsm with state := .error_state }, .idle)
          else
            ({ fsm with state := .end_state }, .idle)

/-- Dispatch through the stored state, as the C's `fsm->state(fsm, datagram)`
indirect call.  `ec_fsm_eoe_end` and `ec_fsm_eoe_error` (lines 491-507) are
empty; a call from the `NULL` state is undefined in the C and unreachable
under the driving contract, modelled as a no-op. -/
def ec_fsm_eoe_state_exec (fsm : EoeFsm) (env : MboxEnv) :
    EoeFsm × MboxAction :=
  match fsm.state with
  | .null_state => (fsm, .idle)
  | .set_ip_start => ec_fsm_eoe_set_ip_start fsm env
  | .set_ip_request => ec_fsm_eoe_set_ip_request fsm env
  | .set_ip_check => ec_fsm_eoe_set_ip_check fsm env
  | .set_ip_response => ec_fsm_eoe_set_ip_response fsm env
  | .end_state => (fsm, .idle)
  | .error_state => (fsm, .idle)

/-- The early-return test of `ec_fsm_eoe_exec` (lines 128-134): a stored
datagram exists and is still Init, Queued, or Sent. -/
def ec_datagram_unresolved : Option EcDatagram → Bool
  | none => false
  | some d =>
      decide (d.state = .init) || decide (d.state = .queued) ||
        decide (d.state = .sent)

/-- `ec_fsm_eoe_exec` (lines 121-148): the per-cycle entry point.  Returns the
updated context, the `datagram_used` flag, and the mailbox action armed on the
fresh datagram. -/
def ec_fsm_eoe_exec (fsm : EoeFsm) (env : MboxEnv) (fresh : EcDatagram) :
    EoeFsm × Nat × MboxAction :=
  if ec_datagram_unresolved fsm.datagram then
    (fsm, 0, .idle)
  else
    let out := ec_fsm_eoe_state_exec fsm env
    if out.1.state ≠ .end_state ∧ out.1.state ≠ .error_state then
      ({ out.1 with datagram := some fresh }, 1, out.2)
    else
      ({ out.1 with datagram := none }, 0, out.2)

/-! ### Multi-cycle runs

A run drives one handler repeatedly.  Storing `some c.d` before each
invocation models what the driver does between handler invocations: the armed
fresh datagram is stored by `ec_fsm_eoe_exec` and the transport then resolves
its fields, so the handler observes `c.d` through `fsm->datagram`. -/

/-- One observed cycle of a handler: the resolved stored datagram and the
collaborator oracle. -/
structure ObsCycle where
  d : EcDatagram
  env : MboxEnv
deriving DecidableEq, Repr

/-- Iterated invocation of the REQUEST handler, one `ObsCycle` per
invocation. -/
def req_run (fsm : EoeFsm) (cs : List ObsCycle) : EoeFsm :=
  cs.foldl
    (fun f c => (ec_fsm_eoe_set_ip_request { f with datagram := some c.d } c.env).1)
    fsm

/-! ### Helper lemmas -/

theorem memcpy_swap32_eq (src : List Nat) :
    memcpy_swap32 src = [src.getD 3 0, src.getD 2 0, src.getD 1 0, src.getD 0 0] := rfl

theorem memcpy_swap32_getD (src : List Nat) (j : Nat) (hj : j < 4) :
    (memcpy_swap32 src).getD j 0 = src.getD (3 - j) 0 := by
  interval_cases j <;> rfl

theorem memcpy_swap32_invol (src : List Nat) (h : src.length = 4) :
    memcpy_swap32 (memcpy_swap32 src) = src := by
  rcases src with _ | ⟨a, _ | ⟨b, _ | ⟨c, _ | ⟨d, t⟩⟩⟩⟩ <;> simp at h
  subst h
  rfl

theorem beVal_beBytes (x : Nat) (h : x < 4294967296) :
    beVal (beBytes x) = x := by
  have hv : beVal (beBytes x) =
      ((x / 16777216 % 256 * 256 + x / 65536 % 256) * 256 + x / 256 % 256) * 256 +
        x % 256 := rfl
  rw [hv]
  omega

theorem memBytes_length (n : Nat) (src : List Nat) : (memBytes n src).length = n := by
  simp [memBytes]

theorem memBytes_getD (n : Nat) (src : List Nat) (j : Nat) (hj : j < n) :
    (memBytes n src).getD j 0 = src.getD j 0 := by
  simp [memBytes, List.getD_eq_getElem?_getD, List.getElem?_map, List.getElem?_range, hj]

theorem replicate_getD (n j : Nat) : (List.replicate n (0 : Nat)).getD j 0 = 0 := by
  induction n generalizing j with
  | zero => rfl
  | succ m ih => cases j with
    | zero => rfl
    | succ k => exact ih k

/-! ### Claim C8 -/

/-- Claim C8: `memcpy_swap32` is a pure architecture-independent byte
reversal and an involution: for every 4-byte source buffer, `dst[i] = src[3-i]`
for `i < 4`; applying it twice through distinct buffers recovers the buffer,
and hence recovers every 32-bit value stored as its 4-byte image
(`swap32(swap32(x)) == x`). -/
theorem memcpy_swap32_reversal_involution :
    (∀ (src : List Nat), src.length = 4 →
      ∀ i, i < 4 → (memcpy_swap32 src).getD i 0 = src.getD (3 - i) 0) ∧
    (∀ (src : List Nat), src.length = 4 →
      memcpy_swap32 (memcpy_swap32 src) = src) ∧
    (∀ x : Nat, x < 4294967296 →
      beVal (memcpy_swap32 (memcpy_swap32 (beBytes x))) = x) := by
  refine ⟨fun src _ i hi => memcpy_swap32_getD src i hi,
          fun src h => memcpy_swap32_invol src h,
          fun x hx => ?_⟩
  rw [memcpy_swap32_invol (beBytes x) rfl]
  exact beVal_beBytes x hx

/-- Witness for C8 at the buffer `[10, 20, 30, 40]` and the 32-bit value
`3232235530` (192.168.0.10). -/
theorem memcpy_swap32_reversal_involution_witness :
    (memcpy_swap32 [10, 20, 30, 40]).getD 0 0 = 40 ∧
    memcpy_swap32 (memcpy_swap32 [10, 20, 30, 40]) = [10, 20, 30, 40] ∧
    beVal (memcpy_swap32 (memcpy_swap32 (beBytes 3232235530))) = 3232235530 :=
  ⟨memcpy_swap32_reversal_involution.1 [10, 20, 30, 40] (by decide) 0 (by decide),
   memcpy_swap32_reversal_involution.2.1 [10, 20, 30, 40] (by decide),
   memcpy_swap32_reversal_involution.2.2 3232235530 (by decide)⟩

/-! ### Claim C5 -/

/-- Claim C5: driving contract of the per-cycle entry point.  When a stored
datagram exists in state Init, Queued or Sent, `ec_fsm_eoe_exec` returns 0
with the context untouched and no handler invoked; otherwise it invokes the
current state handler once and returns 1 exactly when the resulting state is
neither END nor ERROR, storing the passed datagram on 1 and clearing the
stored datagram on 0. -/
theorem ec_fsm_eoe_exec_driving (fsm : EoeFsm) (env : MboxEnv) (fresh : EcDatagram) :
    (ec_datagram_unresolved fsm.datagram = true →
      ec_fsm_eoe_exec fsm env fresh = (fsm, 0, .idle)) ∧
    (ec_datagram_unresolved fsm.datagram = false →
      ((ec_fsm_eoe_exec fsm env fresh).2.1 = 1 ↔
        ((ec_fsm_eoe_state_exec fsm env).1.state ≠ .end_state ∧
         (ec_fsm_eoe_state_exec fsm env).1.state ≠ .error_state)) ∧
      (((ec_fsm_eoe_state_exec fsm env).1.state ≠ .end_state ∧
        (ec_fsm_eoe_state_exec fsm env).1.state ≠ .error_state) →
        ec_fsm_eoe_exec fsm env fresh =
          ({ (ec_fsm_eoe_state_exec fsm env).1 with datagram := some fresh }, 1,
           (ec_fsm_eoe_state_exec fsm env).2)) ∧
      (¬ ((ec_fsm_eoe_state_exec fsm env).1.state ≠ .end_state ∧
          (ec_fsm_eoe_state_exec fsm env).1.state ≠ .error_state) →
        ec_fsm_eoe_exec fsm env fresh =
          ({ (ec_fsm_eoe_state_exec fsm env).1 with datagram := none }, 0,
           (ec_fsm_eoe_state_exec fsm env).2))) := by
  constructor
  · intro h
    simp [ec_fsm_eoe_exec, h]
  · intro h
    refine ⟨?_, ?_, ?_⟩
    · by_cases hc : (ec_fsm_eoe_state_exec fsm env).1.state ≠ .end_state ∧
        (ec_fsm_eoe_state_exec fsm env).1.state ≠ .error_state
      · simp [ec_fsm_eoe_exec, h, hc]
      · simp only [ec_fsm_eoe_exec, h, Bool.false_eq_true, if_false, hc, if_neg hc]
        simp [hc]
    · intro hc
      simp [ec_fsm_eoe_exec, h, hc]
    · intro hc
      simp only [ec_fsm_eoe_exec, h, Bool.false_eq_true, if_false, if_neg hc]

/-- Witness for C5: a deferring call (stored datagram still Sent) and a
terminal call (END state, stored datagram Received) at concrete inputs. -/
theorem ec_fsm_eoe_exec_driving_witness :
    (ec_fsm_eoe_exec
        { ec_fsm_eoe_init with
            state := .set_ip_check,
            datagram := some { state := .sent, working_counter := 0,
                               jiffies_sent := 3, jiffies_received := 0 } }
        { now := 5, prepare_send_ok := true, has_data := false, fetch := none }
        { state := .init, working_counter := 0, jiffies_sent := 0,
          jiffies_received := 0 } =
      ({ ec_fsm_eoe_init with
           state := .set_ip_check,
           datagram := some { state := .sent, working_counter := 0,
                              jiffies_sent := 3, jiffies_received := 0 } }, 0, .idle)) ∧
    (ec_fsm_eoe_exec { ec_fsm_eoe_init with state := .end_state }
        { now := 5, prepare_send_ok := true, has_data := false, fetch := none }
        { state := .init, working_counter := 0, jiffies_sent := 0,
          jiffies_received := 0 }).2.1 = 0 := by
  constructor
  · exact (ec_fsm_eoe_exec_driving _ _ _).1 (by decide)
  · rw [((ec_fsm_eoe_exec_driving
      { ec_fsm_eoe_init with state := .end_state }
      { now := 5, prepare_send_ok := true, has_data := false, fetch := none }
      { state := .init, working_counter := 0, jiffies_sent := 0,
        jiffies_received := 0 }).2 (by decide)).2.2 (by decide)]

/-! ### Claim C9 -/

/-- Claim C9: terminal states are idle and preserve all state.  Invoking
`ec_fsm_eoe_exec` while the current state is END or ERROR (and no unresolved
stored datagram causes early deferral) returns 0, arms no transport
operation, and leaves every field of the context — hence also the request —
unchanged, except the stored datagram reference, which is cleared. -/
theorem ec_fsm_eoe_exec_terminal_idle (fsm : EoeFsm) (env : MboxEnv)
    (fresh : EcDatagram)
    (hterm : fsm.state = .end_state ∨ fsm.state = .error_state)
    (hres : ec_datagram_unresolved fsm.datagram = false) :
    ec_fsm_eoe_exec fsm env fresh = ({ fsm with datagram := none }, 0, .idle) := by
  rcases hterm with h | h <;>
    simp [ec_fsm_eoe_exec, ec_fsm_eoe_state_exec, hres, h]

/-- Witness for C9: a concrete ERROR-state context with a resolved stored
datagram. -/
theorem ec_fsm_eoe_exec_terminal_idle_witness :
    ec_fsm_eoe_exec
        { ec_fsm_eoe_init with
            state := .error_state, retries := 2, jiffies_start := 9,
            datagram := some { state := .received, working_counter := 1,
                               jiffies_sent := 4, jiffies_received := 6 } }
        { now := 11, prepare_send_ok := true, has_data := true, fetch := none }
        { state := .init, working_counter := 0, jiffies_sent := 0,
          jiffies_received := 0 } =
      ({ ec_fsm_eoe_init with
           state := .error_state, retries := 2, jiffies_start := 9,
           datagram := none }, 0, .idle) :=
  ec_fsm_eoe_exec_terminal_idle _ _ _ (Or.inr rfl) (by decide)

/-! ### Claim C7 -/

/-- A context carrying leftovers of a previous operation: a nonzero retry
budget, a nonzero frame-type budget, and a stored datagram. -/
def fsmC7 : EoeFsm :=
  { ec_fsm_eoe_init with
      retries := 5, frame_type_retries := 7,
      datagram := some { state := .received, working_counter := 1,
                         jiffies_sent := 1, jiffies_received := 2 } }

/-- A concrete slave and request for the C7 counterexample. -/
def slaveC7 : EoeSlave := { supports_eoe_mailbox := true }

/-- A concrete request for the C7 counterexample. -/
def reqC7 : EoeRequest :=
  { emptyRequest with
      ip_address := [192, 0, 2, 10]
      ip_address_included := true }

/-- Counterexample to claim C7 as stated: `ec_fsm_eoe_set_ip_param` does NOT
reset the retry counters or the stored datagram reference to their initial
empty values (0, 0, NULL as written by `ec_fsm_eoe_init`); it only installs
the slave, the request, and the START state. -/
theorem ec_fsm_eoe_set_ip_param_no_reset_cex :
    ¬ ((ec_fsm_eoe_set_ip_param fsmC7 slaveC7 reqC7).retries =
          ec_fsm_eoe_init.retries ∧
       (ec_fsm_eoe_set_ip_param fsmC7 slaveC7 reqC7).frame_type_retries =
          ec_fsm_eoe_init.frame_type_retries ∧
       (ec_fsm_eoe_set_ip_param fsmC7 slaveC7 reqC7).datagram =
          ec_fsm_eoe_init.datagram) := by
  decide

/-- Claim C7 amended: after `ec_fsm_eoe_set_ip_param(fsm, slave, request)` the
state is the START handler and the slave and request references are the given
ones, but the retry counters, the timestamp and the stored datagram reference
are left unchanged — they are reset by the constructor `ec_fsm_eoe_init`
(retries = 0, frame_type_retries = 0, datagram = NULL) and re-armed by the
START and REQUEST handlers during the operation. -/
theorem ec_fsm_eoe_set_ip_param_amended (fsm : EoeFsm) (slave : EoeSlave)
    (request : EoeRequest) :
    ec_fsm_eoe_set_ip_param fsm slave request =
      { fsm with slave := slave, request := request, state := .set_ip_start } ∧
    ec_fsm_eoe_init.retries = 0 ∧
    ec_fsm_eoe_init.frame_type_retries = 0 ∧
    ec_fsm_eoe_init.datagram = none :=
  ⟨rfl, rfl, rfl, rfl⟩

/-! ### Claim C2 -/

/-- Claim C2: in CHECK, with a received datagram of working counter 1 and the
mailbox check reporting no data, the absolute 3000 ms window dominates the
per-step retry budget: at or past the window the FSM errors regardless of
`retries`; below it, it re-arms a mailbox check, resets the budget to
`EC_FSM_RETRIES`, and stays in CHECK. -/
theorem ec_fsm_eoe_set_ip_check_timeout_dominates (fsm : EoeFsm) (env : MboxEnv)
    (d : EcDatagram)
    (hstate : fsm.state = .set_ip_check)
    (hd : fsm.datagram = some d) (hst : d.state = .received)
    (hwc : d.working_counter = 1) (hnd : env.has_data = false) :
    (EC_EOE_RESPONSE_TIMEOUT ≤
        (d.jiffies_received - fsm.jiffies_start) * 1000 / HZ →
      (ec_fsm_eoe_set_ip_check fsm env).1.state = .error_state) ∧
    ((d.jiffies_received - fsm.jiffies_start) * 1000 / HZ <
        EC_EOE_RESPONSE_TIMEOUT →
      (ec_fsm_eoe_set_ip_check fsm env).1.state = .set_ip_check ∧
      (ec_fsm_eoe_set_ip_check fsm env).1.retries = EC_FSM_RETRIES ∧
      (ec_fsm_eoe_set_ip_check fsm env).2 = .check) := by
  constructor
  · intro hto
    simp [ec_fsm_eoe_set_ip_check, hd, hst, hwc, hnd, hto]
  · intro hto
    have hto' : ¬ EC_EOE_RESPONSE_TIMEOUT ≤
        (d.jiffies_received - fsm.jiffies_start) * 1000 / HZ := by omega
    simp [ec_fsm_eoe_set_ip_check, hd, hst, hwc, hnd, hto', hstate]

/-- Witness for C2: both sides of the window at concrete inputs (retry budget
deliberately 0 on the timed-out side). -/
theorem ec_fsm_eoe_set_ip_check_timeout_dominates_witness :
    (ec_fsm_eoe_set_ip_check
        { ec_fsm_eoe_init with
            state := .set_ip_check, retries := 0, jiffies_start := 100,
            datagram := some { state := .received, working_counter := 1,
                               jiffies_sent := 150, jiffies_received := 3200 } }
        { now := 3300, prepare_send_ok := true, has_data := false,
          fetch := none }).1.state = .error_state ∧
    (ec_fsm_eoe_set_ip_check
        { ec_fsm_eoe_init with
            state := .set_ip_check, retries := 0, jiffies_start := 100,
            datagram := some { state := .received, working_counter := 1,
                               jiffies_sent := 150, jiffies_received := 2200 } }
        { now := 2300, prepare_send_ok := true, has_data := false,
          fetch := none }).1.retries = EC_FSM_RETRIES :=
  ⟨(ec_fsm_eoe_set_ip_check_timeout_dominates _ _ _ rfl rfl rfl rfl rfl).1
      (by decide),
   ((ec_fsm_eoe_set_ip_check_timeout_dominates _ _ _ rfl rfl rfl rfl rfl).2
      (by decide)).2.1⟩

/-! ### Claim C4 -/

/-- Claim C4: response validation order and terminal outcome.  After a
successful fetch in RESPONSE, a mailbox protocol tag other than EoE errors
(irrespective of the payload); with the EoE tag a payload under 4 bytes
errors; otherwise, when the low 4 bits of byte 0 equal SET_IP_RESPONSE, the
little-endian u16 at bytes 2..4 is stored in `request->result`, END is
reached exactly when that result is 0, and a nonzero code reaches ERROR with
the code preserved for the caller. -/
theorem ec_fsm_eoe_set_ip_response_validation (fsm : EoeFsm) (env : MboxEnv)
    (d : EcDatagram) (f : MboxFetched)
    (hd : fsm.datagram = some d) (hst : d.state = .received)
    (hwc : d.working_counter = 1) (hf : env.fetch = some f) :
    (f.mbox_prot ≠ EC_MBOX_TYPE_EOE →
      (ec_fsm_eoe_set_ip_response fsm env).1.state = .error_state) ∧
    (f.mbox_prot = EC_MBOX_TYPE_EOE → f.data.length < 4 →
      (ec_fsm_eoe_set_ip_response fsm env).1.state = .error_state) ∧
    (f.mbox_prot = EC_MBOX_TYPE_EOE → 4 ≤ f.data.length →
      EC_READ_U8 f.data 0 % 16 = EC_EOE_FRAMETYPE_SET_IP_RES →
      (ec_fsm_eoe_set_ip_response fsm env).1.request.result =
        EC_READ_U16 f.data 2 ∧
      (EC_READ_U16 f.data 2 = 0 →
        (ec_fsm_eoe_set_ip_response fsm env).1.state = .end_state) ∧
      (EC_READ_U16 f.data 2 ≠ 0 →
        (ec_fsm_eoe_set_ip_response fsm env).1.state = .error_state)) := by
  refine ⟨fun hp => ?_, fun hp hlen => ?_, fun hp hlen hft => ?_⟩
  · simp [ec_fsm_eoe_set_ip_response, hd, hst, hwc, hf, hp]
  · simp [ec_fsm_eoe_set_ip_response, hd, hst, hwc, hf, hp, hlen]
  · have hlen' : ¬ f.data.length < 4 := by omega
    by_cases hz : EC_READ_U16 f.data 2 = 0
    · refine ⟨?_, fun _ => ?_, fun hnz => absurd hz hnz⟩ <;>
        simp [ec_fsm_eoe_set_ip_response, hd, hst, hwc, hf, hp, hlen', hft, hz]
    · refine ⟨?_, fun h0 => absurd h0 hz, fun _ => ?_⟩ <;>
        simp [ec_fsm_eoe_set_ip_response, hd, hst, hwc, hf, hp, hlen', hft, hz]

/-- Stored datagram for the C4 witness. -/
def dgC4 : EcDatagram :=
  { state := .received, working_counter := 1, jiffies_sent := 7,
    jiffies_received := 9 }

/-- Context for the C4 witness. -/
def fsmC4 : EoeFsm :=
  { ec_fsm_eoe_init with
      state := .set_ip_response, retries := 3, datagram := some dgC4 }

/-- Oracle for the C4 witness, parameterized by the fetched reply. -/
def envC4 (f : MboxFetched) : MboxEnv :=
  { now := 10, prepare_send_ok := true, has_data := true, fetch := some f }

/-- Fetched replies for the C4 witness: the accepted response, the rejected
response (result code 1), and a wrong-protocol reply. -/
def fC4ok : MboxFetched := { mbox_prot := 2, data := [3, 0, 0, 0] }

/-- Rejected response for the C4 witness. -/
def fC4rej : MboxFetched := { mbox_prot := 2, data := [3, 0, 1, 0] }

/-- Wrong-protocol reply for the C4 witness. -/
def fC4prot : MboxFetched := { mbox_prot := 1, data := [3, 0, 0, 0] }

/-- Witness for C4: the spec's success and rejection scenarios — payload
`[0x03, 0, 0, 0]` reaches END with result 0, payload `[0x03, 0, 1, 0]`
reaches ERROR-bound result 1 — plus a wrong-protocol fetch erroring. -/
theorem ec_fsm_eoe_set_ip_response_validation_witness :
    (ec_fsm_eoe_set_ip_response fsmC4 (envC4 fC4ok)).1.state = .end_state ∧
    (ec_fsm_eoe_set_ip_response fsmC4 (envC4 fC4rej)).1.request.result = 1 ∧
    (ec_fsm_eoe_set_ip_response fsmC4 (envC4 fC4prot)).1.state = .error_state := by
  refine ⟨?_, ?_, ?_⟩
  · exact ((ec_fsm_eoe_set_ip_response_validation fsmC4 (envC4 fC4ok) dgC4 fC4ok
      rfl rfl rfl rfl).2.2 (by decide) (by decide) (by decide)).2.1 (by decide)
  · exact ((ec_fsm_eoe_set_ip_response_validation fsmC4 (envC4 fC4rej) dgC4 fC4rej
      rfl rfl rfl rfl).2.2 (by decide) (by decide) (by decide)).1
  · exact (ec_fsm_eoe_set_ip_response_validation fsmC4 (envC4 fC4prot) dgC4 fC4prot
      rfl rfl rfl rfl).1 (by decide)

/-! ### REQUEST-handler step lemmas -/

theorem udec_eq_mod (n : Nat) (h : n < 4294967296) :
    udec n = (n + 4294967295) % 4294967296 := by
  cases n with
  | zero => rfl
  | succ m =>
      show m = (m + 1 + 4294967295) % 4294967296
      omega

theorem udec_pos (n : Nat) (h0 : n ≠ 0) : udec n = n - 1 := by
  cases n with
  | zero => exact absurd rfl h0
  | succ m => rfl

theorem set_ip_request_timed_out_step (fsm : EoeFsm) (env : MboxEnv)
    (d : EcDatagram) (hd : fsm.datagram = some d) (hto : d.state = .timed_out)
    (hr : fsm.retries ≠ 0) (hok : env.prepare_send_ok = true) :
    ec_fsm_eoe_set_ip_request fsm env =
      ({ fsm with retries := udec fsm.retries,
                  request := { fsm.request with jiffies_sent := env.now } },
       .send (ec_fsm_eoe_set_ip_data fsm.request)) := by
  simp [ec_fsm_eoe_set_ip_request, ec_fsm_eoe_prepare_set, hd, hto, hr, hok]

theorem set_ip_request_timed_out_exhausted (fsm : EoeFsm) (env : MboxEnv)
    (d : EcDatagram) (hd : fsm.datagram = some d) (hto : d.state = .timed_out)
    (hr : fsm.retries = 0) :
    ec_fsm_eoe_set_ip_request fsm env =
      ({ fsm with retries := udec fsm.retries, state := .error_state }, .idle) := by
  simp [ec_fsm_eoe_set_ip_request, hd, hto, hr]

theorem set_ip_request_wc0_step (fsm : EoeFsm) (env : MboxEnv) (d : EcDatagram)
    (hd : fsm.datagram = some d) (hrecv : d.state = .received)
    (hwc : d.working_counter = 0) (hok : env.prepare_send_ok = true)
    (hdiff : (env.now - fsm.request.jiffies_sent) * 1000 / HZ <
      EC_EOE_RESPONSE_TIMEOUT) :
    ec_fsm_eoe_set_ip_request fsm env =
      ({ fsm with request := { fsm.request with jiffies_sent := env.now } },
       .send (ec_fsm_eoe_set_ip_data fsm.request)) := by
  simp [ec_fsm_eoe_set_ip_request, ec_fsm_eoe_prepare_set, hd, hrecv, hwc, hok,
        hdiff]

/-- All cycles of a run observe a timed-out stored datagram and a mailbox that
can allocate the re-encoded request. -/
def allTimedOut (cs : List ObsCycle) : Prop :=
  ∀ c ∈ cs, c.d.state = .timed_out ∧ c.env.prepare_send_ok = true

theorem req_run_timed_out (cs : List ObsCycle) :
    ∀ fsm : EoeFsm, allTimedOut cs →
      (cs.length ≤ fsm.retries →
        (req_run fsm cs).state = fsm.state ∧
        (req_run fsm cs).retries = fsm.retries - cs.length) ∧
      (cs.length = fsm.retries + 1 →
        (req_run fsm cs).state = .error_state) := by
  induction cs with
  | nil =>
      intro fsm _
      refine ⟨fun _ => ⟨rfl, rfl⟩, fun h => absurd h ?_⟩
      simp only [List.length_nil]
      omega
  | cons c cs ih =>
      intro fsm hall
      have hc := hall c (List.mem_cons_self c cs)
      have hall' : allTimedOut cs := fun x hx => hall x (List.mem_cons_of_mem c hx)
      by_cases hr : fsm.retries = 0
      · refine ⟨fun hlen => ?_, fun hlen => ?_⟩
        · exfalso
          simp only [List.length_cons, hr] at hlen
          omega
        · have hcs : cs = [] := by
            simp only [List.length_cons, hr] at hlen
            exact List.length_eq_zero.mp (by omega)
          subst hcs
          show (ec_fsm_eoe_set_ip_request
            { fsm with datagram := some c.d } c.env).1.state = .error_state
          rw [set_ip_request_timed_out_exhausted
            { fsm with datagram := some c.d } c.env c.d rfl hc.1 hr]
      · have hstep :
            (ec_fsm_eoe_set_ip_request { fsm with datagram := some c.d } c.env).1 =
            { fsm with
                datagram := some c.d
                retries := udec fsm.retries
                request := { fsm.request with jiffies_sent := c.env.now } } := by
          rw [set_ip_request_timed_out_step
            { fsm with datagram := some c.d } c.env c.d rfl hc.1 hr hc.2]
        have hud : udec fsm.retries = fsm.retries - 1 := udec_pos _ hr
        have hrun : req_run fsm (c :: cs) =
            req_run
              { fsm with
                  datagram := some c.d
                  retries := udec fsm.retries
                  request := { fsm.request with jiffies_sent := c.env.now } } cs := by
          simp only [req_run, List.foldl_cons]
          rw [hstep]
        have ihx := ih
          { fsm with
              datagram := some c.d
              retries := udec fsm.retries
              request := { fsm.request with jiffies_sent := c.env.now } }
          hall'
        constructor
        · intro hlen
          simp only [List.length_cons] at hlen
          have h1 := ihx.1 (by show cs.length ≤ udec fsm.retries; rw [hud]; omega)
          have hst : (req_run
              { fsm with
                  datagram := some c.d
                  retries := udec fsm.retries
                  request := { fsm.request with jiffies_sent := c.env.now } } cs).state =
              fsm.state := h1.1
          have h2 : (req_run
              { fsm with
                  datagram := some c.d
                  retries := udec fsm.retries
                  request := { fsm.request with jiffies_sent := c.env.now } } cs).retries =
              udec fsm.retries - cs.length := h1.2
          rw [hrun]
          simp only [List.length_cons]
          refine ⟨hst, ?_⟩
          rw [h2, hud]
          omega
        · intro hlen
          simp only [List.length_cons] at hlen
          rw [hrun]
          exact ihx.2 (by show cs.length = udec fsm.retries + 1; rw [hud]; omega)

/-! ### Claim C3 -/

/-- Claim C3: per-step retry bound in REQUEST.  With the budget set to
`EC_FSM_RETRIES` on entry, each timed-out invocation with remaining budget
(and a successful re-encode) decrements the budget, re-encodes the request
(arming a fresh send of the encoded payload) and stays in REQUEST; a run of
`EC_FSM_RETRIES` consecutive timed-out invocations is hence still in REQUEST
with budget 0, and the `(EC_FSM_RETRIES + 1)`-th consecutive timed-out
invocation — never a later one — transitions to ERROR. -/
theorem ec_fsm_eoe_set_ip_request_retry_bound :
    (∀ (fsm : EoeFsm) (env : MboxEnv) (d : EcDatagram),
      fsm.datagram = some d → d.state = .timed_out → fsm.retries ≠ 0 →
      env.prepare_send_ok = true →
      (ec_fsm_eoe_set_ip_request fsm env).1.state = fsm.state ∧
      (ec_fsm_eoe_set_ip_request fsm env).1.retries = fsm.retries - 1 ∧
      (ec_fsm_eoe_set_ip_request fsm env).2 =
        .send (ec_fsm_eoe_set_ip_data fsm.request)) ∧
    (∀ (cs : List ObsCycle) (fsm : EoeFsm),
      allTimedOut cs → fsm.state = .set_ip_request →
      fsm.retries = EC_FSM_RETRIES →
      (cs.length = EC_FSM_RETRIES →
        (req_run fsm cs).state = .set_ip_request ∧
        (req_run fsm cs).retries = 0) ∧
      (cs.length = EC_FSM_RETRIES + 1 →
        (req_run fsm cs).state = .error_state)) := by
  constructor
  · intro fsm env d hd hto hr hok
    rw [set_ip_request_timed_out_step fsm env d hd hto hr hok]
    exact ⟨rfl, udec_pos _ hr, rfl⟩
  · intro cs fsm hall hstate hret
    have h := req_run_timed_out cs fsm hall
    refine ⟨fun hlen => ?_, fun hlen => h.2 (by omega)⟩
    have h1 := h.1 (by omega)
    rw [hstate] at h1
    exact ⟨h1.1, by rw [h1.2]; omega⟩

/-- A timed-out observed cycle with a working mailbox, for the C3 witness. -/
def cycC3 : ObsCycle :=
  { d := { state := .timed_out, working_counter := 0, jiffies_sent := 0,
           jiffies_received := 0 },
    env := { now := 40, prepare_send_ok := true, has_data := false,
             fetch := none } }

/-- Entry context for the C3 witness: fresh REQUEST state with a full
budget. -/
def fsmC3 : EoeFsm :=
  { ec_fsm_eoe_init with
      state := .set_ip_request
      retries := EC_FSM_RETRIES
      request := reqC7 }

/-- Witness for C3: three consecutive timeouts leave the FSM in REQUEST with
budget 0; the fourth reaches ERROR. -/
theorem ec_fsm_eoe_set_ip_request_retry_bound_witness :
    (req_run fsmC3 (List.replicate EC_FSM_RETRIES cycC3)).state =
      .set_ip_request ∧
    (req_run fsmC3 (List.replicate (EC_FSM_RETRIES + 1) cycC3)).state =
      .error_state :=
  ⟨((ec_fsm_eoe_set_ip_request_retry_bound.2
        (List.replicate EC_FSM_RETRIES cycC3) fsmC3
        (fun c hc => by rw [List.eq_of_mem_replicate hc]; exact ⟨rfl, rfl⟩)
        rfl rfl).1 (by decide)).1,
   (ec_fsm_eoe_set_ip_request_retry_bound.2
        (List.replicate (EC_FSM_RETRIES + 1) cycC3) fsmC3
        (fun c hc => by rw [List.eq_of_mem_replicate hc]; exact ⟨rfl, rfl⟩)
        rfl rfl).2 (by decide)⟩

/-! ### Claim C10 -/

/-- A run of REQUEST cycles in which every cycle observes a received datagram
with working counter 0, the mailbox can re-send, and the current time is
within the 3000 ms window measured from the PREVIOUS re-encode (threaded
through `prev`, starting from the request's `jiffies_sent`). -/
def wc0_fresh : Nat → List ObsCycle → Bool
  | _, [] => true
  | prev, c :: cs =>
      decide (c.d.state = .received) && decide (c.d.working_counter = 0) &&
      c.env.prepare_send_ok &&
      decide ((c.env.now - prev) * 1000 / HZ < EC_EOE_RESPONSE_TIMEOUT) &&
      wc0_fresh c.env.now cs

/-- Claim C10 (implicit): the 3000 ms no-acknowledgment window in REQUEST is
measured from the most recent retransmission, because every
`ec_fsm_eoe_prepare_set` call overwrites `request->jiffies_sent` with the
current time (first conjunct); consequently a run in which every REQUEST
cycle observes working counter 0 less than 3000 ms after the previous
re-encode stays in REQUEST forever — it never transitions to ERROR (second
conjunct). -/
theorem ec_fsm_eoe_set_ip_request_wc0_window :
    (∀ (fsm : EoeFsm) (env : MboxEnv),
      env.prepare_send_ok = true →
      ec_fsm_eoe_prepare_set fsm env =
        some ({ fsm with request := { fsm.request with jiffies_sent := env.now } },
              ec_fsm_eoe_set_ip_data fsm.request)) ∧
    (∀ (cs : List ObsCycle) (fsm : EoeFsm),
      wc0_fresh fsm.request.jiffies_sent cs = true →
      fsm.state = .set_ip_request →
      (req_run fsm cs).state = .set_ip_request) := by
  constructor
  · intro fsm env hok
    simp [ec_fsm_eoe_prepare_set, hok]
  · intro cs
    induction cs with
    | nil => intro fsm _ hstate; exact hstate
    | cons c cs ih =>
        intro fsm hfresh hstate
        simp only [wc0_fresh, Bool.and_eq_true, decide_eq_true_eq] at hfresh
        obtain ⟨⟨⟨⟨hrecv, hwc⟩, hok⟩, hdiff⟩, hrest⟩ := hfresh
        have hstep :
            (ec_fsm_eoe_set_ip_request { fsm with datagram := some c.d } c.env).1 =
            { fsm with
                datagram := some c.d
                request := { fsm.request with jiffies_sent := c.env.now } } := by
          rw [set_ip_request_wc0_step
            { fsm with datagram := some c.d } c.env c.d rfl hrecv hwc hok hdiff]
        have hrun : req_run fsm (c :: cs) =
            req_run
              { fsm with
                  datagram := some c.d
                  request := { fsm.request with jiffies_sent := c.env.now } } cs := by
          simp only [req_run, List.foldl_cons]
          rw [hstep]
        rw [hrun]
        exact ih
          { fsm with
              datagram := some c.d
              request := { fsm.request with jiffies_sent := c.env.now } }
          hrest hstate

/-- Two observed wc-0 cycles for the C10 witness: each arrives 2000 ms after
the previous send, so no single gap crosses the window although the total
elapsed time (4000 ms) does. -/
def cycC10a : ObsCycle :=
  { d := { state := .received, working_counter := 0, jiffies_sent := 10,
           jiffies_received := 15 },
    env := { now := 2000, prepare_send_ok := true, has_data := false,
             fetch := none } }

/-- Second wc-0 cycle for the C10 witness, 2000 ms after the first
re-encode. -/
def cycC10b : ObsCycle :=
  { d := { state := .received, working_counter := 0, jiffies_sent := 2001,
           jiffies_received := 2004 },
    env := { now := 4000, prepare_send_ok := true, has_data := false,
             fetch := none } }

/-- Witness for C10: the jiffies_sent overwrite at a concrete input, and a
two-cycle wc-0 run (total elapsed 4000 ms > 3000 ms, each gap 2000 ms) that
stays in REQUEST. -/
theorem ec_fsm_eoe_set_ip_request_wc0_window_witness :
    ec_fsm_eoe_prepare_set fsmC3
        { now := 77, prepare_send_ok := true, has_data := false, fetch := none } =
      some ({ fsmC3 with request := { fsmC3.request with jiffies_sent := 77 } },
            ec_fsm_eoe_set_ip_data fsmC3.request) ∧
    (req_run fsmC3 [cycC10a, cycC10b]).state = .set_ip_request :=
  ⟨ec_fsm_eoe_set_ip_request_wc0_window.1 fsmC3
      { now := 77, prepare_send_ok := true, has_data := false, fetch := none }
      rfl,
   ec_fsm_eoe_set_ip_request_wc0_window.2 [cycC10a, cycC10b] fsmC3
      (by decide) rfl⟩

/-! ### CHECK/RESPONSE step lemmas and the stray-segment round -/

theorem set_ip_request_success_step (fsm : EoeFsm) (env : MboxEnv)
    (d : EcDatagram) (hd : fsm.datagram = some d) (hrecv : d.state = .received)
    (hwc : d.working_counter = 1) :
    ec_fsm_eoe_set_ip_request fsm env =
      ({ fsm with jiffies_start := d.jiffies_sent, retries := EC_FSM_RETRIES,
                  state := .set_ip_check, frame_type_retries := 10 }, .check) := by
  simp [ec_fsm_eoe_set_ip_request, hd, hrecv, hwc]

theorem set_ip_check_data_step (fsm : EoeFsm) (env : MboxEnv) (d : EcDatagram)
    (hd : fsm.datagram = some d) (hrecv : d.state = .received)
    (hwc : d.working_counter = 1) (hhd : env.has_data = true) :
    ec_fsm_eoe_set_ip_check fsm env =
      ({ fsm with retries := EC_FSM_RETRIES, state := .set_ip_response },
       .fetch) := by
  simp [ec_fsm_eoe_set_ip_check, hd, hrecv, hwc, hhd]

theorem set_ip_response_mism_step (fsm : EoeFsm) (env : MboxEnv)
    (d : EcDatagram) (f : MboxFetched)
    (hd : fsm.datagram = some d) (hrecv : d.state = .received)
    (hwc : d.working_counter = 1) (hf : env.fetch = some f)
    (hp : f.mbox_prot = EC_MBOX_TYPE_EOE) (hlen : 4 ≤ f.data.length)
    (hft : EC_READ_U8 f.data 0 % 16 ≠ EC_EOE_FRAMETYPE_SET_IP_RES)
    (hftr : fsm.frame_type_retries ≠ 0) :
    ec_fsm_eoe_set_ip_response fsm env =
      ({ fsm with frame_type_retries := udec fsm.frame_type_retries,
                  jiffies_start := d.jiffies_sent,
                  retries := EC_FSM_RETRIES,
                  state := .set_ip_check }, .check) := by
  have hlen' : ¬ f.data.length < 4 := by omega
  simp [ec_fsm_eoe_set_ip_response, hd, hrecv, hwc, hf, hp, hlen', hft, hftr]

theorem set_ip_response_mism_exhausted (fsm : EoeFsm) (env : MboxEnv)
    (d : EcDatagram) (f : MboxFetched)
    (hd : fsm.datagram = some d) (hrecv : d.state = .received)
    (hwc : d.working_counter = 1) (hf : env.fetch = some f)
    (hp : f.mbox_prot = EC_MBOX_TYPE_EOE) (hlen : 4 ≤ f.data.length)
    (hft : EC_READ_U8 f.data 0 % 16 ≠ EC_EOE_FRAMETYPE_SET_IP_RES)
    (hftr : fsm.frame_type_retries = 0) :
    ec_fsm_eoe_set_ip_response fsm env =
      ({ fsm with frame_type_retries := udec fsm.frame_type_retries,
                  state := .error_state }, .idle) := by
  have hlen' : ¬ f.data.length < 4 := by omega
  simp [ec_fsm_eoe_set_ip_response, hd, hrecv, hwc, hf, hp, hlen', hft, hftr]

theorem set_ip_response_match_step (fsm : EoeFsm) (env : MboxEnv)
    (d : EcDatagram) (f : MboxFetched)
    (hd : fsm.datagram = some d) (hrecv : d.state = .received)
    (hwc : d.working_counter = 1) (hf : env.fetch = some f)
    (hp : f.mbox_prot = EC_MBOX_TYPE_EOE) (hlen : 4 ≤ f.data.length)
    (hft : EC_READ_U8 f.data 0 % 16 = EC_EOE_FRAMETYPE_SET_IP_RES)
    (hz : EC_READ_U16 f.data 2 = 0) :
    ec_fsm_eoe_set_ip_response fsm env =
      ({ fsm with request := { fsm.request with result := 0 },
                  state := .end_state }, .idle) := by
  have hlen' : ¬ f.data.length < 4 := by omega
  simp [ec_fsm_eoe_set_ip_response, hd, hrecv, hwc, hf, hp, hlen', hft, hz]

/-- One CHECK-poll plus RESPONSE-fetch interaction during the wait for a
response: the resolved check and fetch datagrams and the two collaborator
oracles. -/
structure StrayRound where
  dchk : EcDatagram
  echk : MboxEnv
  dresp : EcDatagram
  eresp : MboxEnv
deriving DecidableEq, Repr

/-- One CHECK invocation followed by one RESPONSE invocation, each observing
its resolved datagram (as stored by the driver and resolved by the
transport). -/
def stray_round (fsm : EoeFsm) (r : StrayRound) : EoeFsm :=
  (ec_fsm_eoe_set_ip_response
    { (ec_fsm_eoe_set_ip_check { fsm with datagram := some r.dchk } r.echk).1
        with datagram := some r.dresp } r.eresp).1

/-- Iterated check/response rounds. -/
def stray_run (fsm : EoeFsm) (rs : List StrayRound) : EoeFsm :=
  rs.foldl stray_round fsm

/-- The fetched payload is a well-formed EoE frame whose low frame-type
nibble is NOT SET_IP_RESPONSE (a stray EoE segment). -/
def stray_fetch_mism (o : Option MboxFetched) : Bool :=
  match o with
  | none => false
  | some f =>
      decide (f.mbox_prot = EC_MBOX_TYPE_EOE) && decide (4 ≤ f.data.length) &&
      decide (EC_READ_U8 f.data 0 % 16 ≠ EC_EOE_FRAMETYPE_SET_IP_RES)

/-- A round whose check succeeds with data available and whose fetch returns
a stray (wrong-frame-type) EoE segment. -/
def stray_round_ok (r : StrayRound) : Bool :=
  decide (r.dchk.state = .received) && decide (r.dchk.working_counter = 1) &&
  r.echk.has_data &&
  decide (r.dresp.state = .received) && decide (r.dresp.working_counter = 1) &&
  stray_fetch_mism r.eresp.fetch

/-- The fetched payload is the correct SET_IP_RESPONSE frame with result
code 0. -/
def success_fetch (o : Option MboxFetched) : Bool :=
  match o with
  | none => false
  | some f =>
      decide (f.mbox_prot = EC_MBOX_TYPE_EOE) && decide (4 ≤ f.data.length) &&
      decide (EC_READ_U8 f.data 0 % 16 = EC_EOE_FRAMETYPE_SET_IP_RES) &&
      decide (EC_READ_U16 f.data 2 = 0)

/-- A round whose check succeeds with data available and whose fetch returns
the correct response with result 0. -/
def success_round_ok (r : StrayRound) : Bool :=
  decide (r.dchk.state = .received) && decide (r.dchk.working_counter = 1) &&
  r.echk.has_data &&
  decide (r.dresp.state = .received) && decide (r.dresp.working_counter = 1) &&
  success_fetch r.eresp.fetch

theorem stray_round_step (fsm : EoeFsm) (r : StrayRound)
    (hok : stray_round_ok r = true) (hftr : fsm.frame_type_retries ≠ 0) :
    stray_round fsm r =
      { fsm with
          datagram := some r.dresp
          jiffies_start := r.dresp.jiffies_sent
          retries := EC_FSM_RETRIES
          state := .set_ip_check
          frame_type_retries := udec fsm.frame_type_retries } := by
  simp only [stray_round_ok, Bool.and_eq_true, decide_eq_true_eq] at hok
  obtain ⟨⟨⟨⟨⟨h1, h2⟩, h3⟩, h4⟩, h5⟩, h6⟩ := hok
  cases hf : r.eresp.fetch with
  | none => rw [hf] at h6; simp [stray_fetch_mism] at h6
  | some f =>
      rw [hf] at h6
      simp only [stray_fetch_mism, Bool.and_eq_true, decide_eq_true_eq] at h6
      obtain ⟨⟨hp, hlen⟩, hft⟩ := h6
      have hchk :
          (ec_fsm_eoe_set_ip_check { fsm with datagram := some r.dchk } r.echk).1 =
          { fsm with
              datagram := some r.dchk
              retries := EC_FSM_RETRIES
              state := .set_ip_response } := by
        rw [set_ip_check_data_step
          { fsm with datagram := some r.dchk } r.echk r.dchk rfl h1 h2 h3]
      show (ec_fsm_eoe_set_ip_response
        { (ec_fsm_eoe_set_ip_check { fsm with datagram := some r.dchk } r.echk).1
            with datagram := some r.dresp } r.eresp).1 = _
      rw [hchk]
      rw [set_ip_response_mism_step
        { fsm with
            datagram := some r.dresp
            retries := EC_FSM_RETRIES
            state := .set_ip_response }
        r.eresp r.dresp f rfl h4 h5 hf hp hlen hft hftr]

theorem stray_round_err (fsm : EoeFsm) (r : StrayRound)
    (hok : stray_round_ok r = true) (hftr : fsm.frame_type_retries = 0) :
    (stray_round fsm r).state = .error_state := by
  simp only [stray_round_ok, Bool.and_eq_true, decide_eq_true_eq] at hok
  obtain ⟨⟨⟨⟨⟨h1, h2⟩, h3⟩, h4⟩, h5⟩, h6⟩ := hok
  cases hf : r.eresp.fetch with
  | none => rw [hf] at h6; simp [stray_fetch_mism] at h6
  | some f =>
      rw [hf] at h6
      simp only [stray_fetch_mism, Bool.and_eq_true, decide_eq_true_eq] at h6
      obtain ⟨⟨hp, hlen⟩, hft⟩ := h6
      have hchk :
          (ec_fsm_eoe_set_ip_check { fsm with datagram := some r.dchk } r.echk).1 =
          { fsm with
              datagram := some r.dchk
              retries := EC_FSM_RETRIES
              state := .set_ip_response } := by
        rw [set_ip_check_data_step
          { fsm with datagram := some r.dchk } r.echk r.dchk rfl h1 h2 h3]
      show (ec_fsm_eoe_set_ip_response
        { (ec_fsm_eoe_set_ip_check { fsm with datagram := some r.dchk } r.echk).1
            with datagram := some r.dresp } r.eresp).1.state = _
      rw [hchk]
      rw [set_ip_response_mism_exhausted
        { fsm with
            datagram := some r.dresp
            retries := EC_FSM_RETRIES
            state := .set_ip_response }
        r.eresp r.dresp f rfl h4 h5 hf hp hlen hft hftr]

theorem stray_round_success (fsm : EoeFsm) (r : StrayRound)
    (hok : success_round_ok r = true) :
    (stray_round fsm r).state = .end_state := by
  simp only [success_round_ok, Bool.and_eq_true, decide_eq_true_eq] at hok
  obtain ⟨⟨⟨⟨⟨h1, h2⟩, h3⟩, h4⟩, h5⟩, h6⟩ := hok
  cases hf : r.eresp.fetch with
  | none => rw [hf] at h6; simp [success_fetch] at h6
  | some f =>
      rw [hf] at h6
      simp only [success_fetch, Bool.and_eq_true, decide_eq_true_eq] at h6
      obtain ⟨⟨⟨hp, hlen⟩, hft⟩, hz⟩ := h6
      have hchk :
          (ec_fsm_eoe_set_ip_check { fsm with datagram := some r.dchk } r.echk).1 =
          { fsm with
              datagram := some r.dchk
              retries := EC_FSM_RETRIES
              state := .set_ip_response } := by
        rw [set_ip_check_data_step
          { fsm with datagram := some r.dchk } r.echk r.dchk rfl h1 h2 h3]
      show (ec_fsm_eoe_set_ip_response
        { (ec_fsm_eoe_set_ip_check { fsm with datagram := some r.dchk } r.echk).1
            with datagram := some r.dresp } r.eresp).1.state = _
      rw [hchk]
      rw [set_ip_response_match_step
        { fsm with
            datagram := some r.dresp
            retries := EC_FSM_RETRIES
            state := .set_ip_response }
        r.eresp r.dresp f rfl h4 h5 hf hp hlen hft hz]

theorem stray_run_invariant (rs : List StrayRound) :
    ∀ fsm : EoeFsm, (∀ r ∈ rs, stray_round_ok r = true) →
      fsm.state = .set_ip_check →
      (rs.length ≤ fsm.frame_type_retries →
        (stray_run fsm rs).state = .set_ip_check ∧
        (stray_run fsm rs).frame_type_retries =
          fsm.frame_type_retries - rs.length) ∧
      (rs.length = fsm.frame_type_retries + 1 →
        (stray_run fsm rs).state = .error_state) := by
  induction rs with
  | nil =>
      intro fsm _ hstate
      refine ⟨fun _ => ⟨hstate, rfl⟩, fun h => absurd h ?_⟩
      simp only [List.length_nil]
      omega
  | cons r rs ih =>
      intro fsm hall hstate
      have hr := hall r (List.mem_cons_self r rs)
      have hall' : ∀ x ∈ rs, stray_round_ok x = true :=
        fun x hx => hall x (List.mem_cons_of_mem r hx)
      by_cases hftr : fsm.frame_type_retries = 0
      · refine ⟨fun hlen => ?_, fun hlen => ?_⟩
        · exfalso
          simp only [List.length_cons, hftr] at hlen
          omega
        · have hrs : rs = [] := by
            simp only [List.length_cons, hftr] at hlen
            exact List.length_eq_zero.mp (by omega)
          subst hrs
          exact stray_round_err fsm r hr hftr
      · have hstep := stray_round_step fsm r hr hftr
        have hud : udec fsm.frame_type_retries = fsm.frame_type_retries - 1 :=
          udec_pos _ hftr
        have hrun : stray_run fsm (r :: rs) =
            stray_run
              { fsm with
                  datagram := some r.dresp
                  jiffies_start := r.dresp.jiffies_sent
                  retries := EC_FSM_RETRIES
                  state := .set_ip_check
                  frame_type_retries := udec fsm.frame_type_retries } rs := by
          simp only [stray_run, List.foldl_cons]
          rw [hstep]
        have ihx := ih
          { fsm with
              datagram := some r.dresp
              jiffies_start := r.dresp.jiffies_sent
              retries := EC_FSM_RETRIES
              state := .set_ip_check
              frame_type_retries := udec fsm.frame_type_retries }
          hall' rfl
        constructor
        · intro hlen
          simp only [List.length_cons] at hlen
          have h1 := ihx.1
            (by show rs.length ≤ udec fsm.frame_type_retries; rw [hud]; omega)
          have hst : (stray_run
              { fsm with
                  datagram := some r.dresp
                  jiffies_start := r.dresp.jiffies_sent
                  retries := EC_FSM_RETRIES
                  state := .set_ip_check
                  frame_type_retries := udec fsm.frame_type_retries } rs).state =
              .set_ip_check := h1.1
          have h2 : (stray_run
              { fsm with
                  datagram := some r.dresp
                  jiffies_start := r.dresp.jiffies_sent
                  retries := EC_FSM_RETRIES
                  state := .set_ip_check
                  frame_type_retries := udec fsm.frame_type_retries } rs).frame_type_retries =
              udec fsm.frame_type_retries - rs.length := h1.2
          rw [hrun]
          simp only [List.length_cons]
          refine ⟨hst, ?_⟩
          rw [h2, hud]
          omega
        · intro hlen
          simp only [List.length_cons] at hlen
          rw [hrun]
          exact ihx.2
            (by show rs.length = udec fsm.frame_type_retries + 1; rw [hud]; omega)

/-! ### Claim C1 -/

/-- Claim C1: stray-segment recovery bound.  (1) A successful REQUEST
transition sets `frame_type_retries` to 10 (arming CHECK with a fresh retry
budget and the response-wait timestamp).  (2) Each RESPONSE invocation that
decodes a fetched EoE payload whose low frame-type nibble differs from
SET_IP_RESPONSE, while the frame-type budget is nonzero, sends the FSM back
to CHECK, resets `jiffies_start` to the fetch datagram's send time, resets
`retries` to `EC_FSM_RETRIES`, and decrements the frame-type budget.  (3)
After `k ≤ 10` such mismatch rounds following the REQUEST success the FSM is
still in CHECK, and a subsequent correct frame with result 0 brings it to
END.  (4) On the 11th consecutive mismatch it reaches ERROR instead. -/
theorem ec_fsm_eoe_stray_segment_recovery :
    (∀ (fsm : EoeFsm) (env : MboxEnv) (d : EcDatagram),
      fsm.datagram = some d → d.state = .received → d.working_counter = 1 →
      (ec_fsm_eoe_set_ip_request fsm env).1.state = .set_ip_check ∧
      (ec_fsm_eoe_set_ip_request fsm env).1.frame_type_retries = 10 ∧
      (ec_fsm_eoe_set_ip_request fsm env).1.retries = EC_FSM_RETRIES ∧
      (ec_fsm_eoe_set_ip_request fsm env).1.jiffies_start = d.jiffies_sent) ∧
    (∀ (fsm : EoeFsm) (r : StrayRound),
      stray_round_ok r = true → fsm.frame_type_retries ≠ 0 →
      (stray_round fsm r).state = .set_ip_check ∧
      (stray_round fsm r).jiffies_start = r.dresp.jiffies_sent ∧
      (stray_round fsm r).retries = EC_FSM_RETRIES ∧
      (stray_round fsm r).frame_type_retries = fsm.frame_type_retries - 1) ∧
    (∀ (rs : List StrayRound) (fsm : EoeFsm) (rfin : StrayRound),
      (∀ r ∈ rs, stray_round_ok r = true) → fsm.state = .set_ip_check →
      fsm.frame_type_retries = 10 → rs.length ≤ 10 →
      success_round_ok rfin = true →
      (stray_run fsm rs).state = .set_ip_check ∧
      (stray_round (stray_run fsm rs) rfin).state = .end_state) ∧
    (∀ (rs : List StrayRound) (fsm : EoeFsm),
      (∀ r ∈ rs, stray_round_ok r = true) → fsm.state = .set_ip_check →
      fsm.frame_type_retries = 10 → rs.length = 11 →
      (stray_run fsm rs).state = .error_state) := by
  refine ⟨?_, ?_, ?_, ?_⟩
  · intro fsm env d hd hrecv hwc
    rw [set_ip_request_success_step fsm env d hd hrecv hwc]
    exact ⟨rfl, rfl, rfl, rfl⟩
  · intro fsm r hok hftr
    rw [stray_round_step fsm r hok hftr]
    exact ⟨rfl, rfl, rfl, udec_pos _ hftr⟩
  · intro rs fsm rfin hall hstate hftr hlen hfin
    have h := (stray_run_invariant rs fsm hall hstate).1 (by omega)
    exact ⟨h.1, stray_round_success _ rfin hfin⟩
  · intro rs fsm hall hstate hftr hlen
    exact (stray_run_invariant rs fsm hall hstate).2 (by omega)

/-- A stray round for the C1 witness: the fetch returns an EoE data segment
(frame type nibble 0) instead of the response. -/
def strayR : StrayRound :=
  { dchk := { state := .received, working_counter := 1, jiffies_sent := 20,
              jiffies_received := 25 },
    echk := { now := 30, prepare_send_ok := true, has_data := true,
              fetch := none },
    dresp := { state := .received, working_counter := 1, jiffies_sent := 31,
               jiffies_received := 36 },
    eresp := { now := 40, prepare_send_ok := true, has_data := true,
               fetch := some { mbox_prot := 2, data := [0, 0, 17, 0] } } }

/-- A success round for the C1 witness: the fetch returns the SET_IP_RESPONSE
frame with result 0. -/
def successR : StrayRound :=
  { dchk := { state := .received, working_counter := 1, jiffies_sent := 50,
              jiffies_received := 55 },
    echk := { now := 60, prepare_send_ok := true, has_data := true,
              fetch := none },
    dresp := { state := .received, working_counter := 1, jiffies_sent := 61,
               jiffies_received := 66 },
    eresp := { now := 70, prepare_send_ok := true, has_data := true,
               fetch := some { mbox_prot := 2, data := [3, 0, 0, 0] } } }

/-- Context for the C1 witness: the FSM just after a successful REQUEST
transition (CHECK state, frame-type budget 10). -/
def fsmC1 : EoeFsm :=
  { ec_fsm_eoe_init with
      state := .set_ip_check
      retries := EC_FSM_RETRIES
      frame_type_retries := 10
      jiffies_start := 20
      request := reqC7 }

/-- Witness for C1: two stray rounds keep the FSM recoverable and a correct
frame then reaches END; eleven stray rounds reach ERROR. -/
theorem ec_fsm_eoe_stray_segment_recovery_witness :
    (stray_run fsmC1 (List.replicate 2 strayR)).state = .set_ip_check ∧
    (stray_round (stray_run fsmC1 (List.replicate 2 strayR)) successR).state =
      .end_state ∧
    (stray_run fsmC1 (List.replicate 11 strayR)).state = .error_state := by
  have h3 := (ec_fsm_eoe_stray_segment_recovery.2.2.1
    (List.replicate 2 strayR) fsmC1 successR
    (fun r h => by rw [List.eq_of_mem_replicate h]; decide)
    rfl rfl (by decide) (by decide))
  have h4 := ec_fsm_eoe_stray_segment_recovery.2.2.2
    (List.replicate 11 strayR) fsmC1
    (fun r h => by rw [List.eq_of_mem_replicate h]; decide)
    rfl rfl (by decide)
  exact ⟨h3.1, h3.2, h4⟩

/-! ### Encoder layout lemmas -/

theorem EC_WRITE_U32_length (x : Nat) : (EC_WRITE_U32 x).length = 4 := rfl

theorem getD_skip (l lr : List Nat) (n i : Nat) (hl : l.length = n)
    (hi : n ≤ i) : (l ++ lr).getD i 0 = lr.getD (i - n) 0 := by
  rw [List.getD_append_right l lr 0 i (by omega), hl]

theorem macSeg_length (req : EoeRequest) : (macSeg req).length = 6 := by
  unfold macSeg
  split <;> rfl

theorem ipSeg_length (req : EoeRequest) : (ipSeg req).length = 4 := by
  unfold ipSeg
  split <;> rfl

theorem subnetSeg_length (req : EoeRequest) : (subnetSeg req).length = 4 := by
  unfold subnetSeg
  split <;> rfl

theorem gatewaySeg_length (req : EoeRequest) : (gatewaySeg req).length = 4 := by
  unfold gatewaySeg
  split <;> rfl

theorem dnsSeg_length (req : EoeRequest) : (dnsSeg req).length = 4 := by
  unfold dnsSeg
  split <;> rfl

theorem nameSeg_length (req : EoeRequest) : (nameSeg req).length = 32 := by
  unfold nameSeg
  split <;> rfl

theorem macSeg_getD (req : EoeRequest) (j : Nat) (hj : j < 6) :
    (macSeg req).getD j 0 =
      if req.mac_address_included then req.mac_address.getD j 0 else 0 := by
  unfold macSeg
  split
  · exact memBytes_getD _ _ _ hj
  · exact replicate_getD _ _

theorem ipSeg_getD (req : EoeRequest) (j : Nat) (hj : j < 4) :
    (ipSeg req).getD j 0 =
      if req.ip_address_included then req.ip_address.getD (3 - j) 0 else 0 := by
  unfold ipSeg
  split
  · exact memcpy_swap32_getD _ _ hj
  · exact replicate_getD _ _

theorem subnetSeg_getD (req : EoeRequest) (j : Nat) (hj : j < 4) :
    (subnetSeg req).getD j 0 =
      if req.subnet_mask_included then req.subnet_mask.getD (3 - j) 0 else 0 := by
  unfold subnetSeg
  split
  · exact memcpy_swap32_getD _ _ hj
  · exact replicate_getD _ _

theorem gatewaySeg_getD (req : EoeRequest) (j : Nat) (hj : j < 4) :
    (gatewaySeg req).getD j 0 =
      if req.gateway_included then req.gateway.getD (3 - j) 0 else 0 := by
  unfold gatewaySeg
  split
  · exact memcpy_swap32_getD _ _ hj
  · exact replicate_getD _ _

theorem dnsSeg_getD (req : EoeRequest) (j : Nat) (hj : j < 4) :
    (dnsSeg req).getD j 0 =
      if req.dns_included then req.dns.getD (3 - j) 0 else 0 := by
  unfold dnsSeg
  split
  · exact memcpy_swap32_getD _ _ hj
  · exact replicate_getD _ _

theorem nameSeg_getD (req : EoeRequest) (j : Nat) (hj : j < 32) :
    (nameSeg req).getD j 0 =
      if req.name_included then req.name.getD j 0 else 0 := by
  unfold nameSeg
  split
  · exact memBytes_getD _ _ _ hj
  · exact replicate_getD _ _

theorem set_ip_data_getD_mac (req : EoeRequest) (j : Nat) (hj : j < 6) :
    (ec_fsm_eoe_set_ip_data req).getD (8 + j) 0 = (macSeg req).getD j 0 := by
  unfold ec_fsm_eoe_set_ip_data
  rw [getD_skip setIpHeadBytes _ 4 (8 + j) rfl (by omega)]
  rw [getD_skip (EC_WRITE_U32 (setIpFlags req)) _ 4 (8 + j - 4)
    (EC_WRITE_U32_length _) (by omega)]
  rw [show 8 + j - 4 - 4 = j by omega]
  exact List.getD_append _ _ _ _ (by rw [macSeg_length]; omega)

theorem set_ip_data_getD_ip (req : EoeRequest) (j : Nat) (hj : j < 4) :
    (ec_fsm_eoe_set_ip_data req).getD (14 + j) 0 = (ipSeg req).getD j 0 := by
  unfold ec_fsm_eoe_set_ip_data
  rw [getD_skip setIpHeadBytes _ 4 (14 + j) rfl (by omega)]
  rw [getD_skip (EC_WRITE_U32 (setIpFlags req)) _ 4 (14 + j - 4)
    (EC_WRITE_U32_length _) (by omega)]
  rw [getD_skip (macSeg req) _ 6 (14 + j - 4 - 4) (macSeg_length _) (by omega)]
  rw [show 14 + j - 4 - 4 - 6 = j by omega]
  exact List.getD_append _ _ _ _ (by rw [ipSeg_length]; omega)

theorem set_ip_data_getD_subnet (req : EoeRequest) (j : Nat) (hj : j < 4) :
    (ec_fsm_eoe_set_ip_data req).getD (18 + j) 0 = (subnetSeg req).getD j 0 := by
  unfold ec_fsm_eoe_set_ip_data
  rw [getD_skip setIpHeadBytes _ 4 (18 + j) rfl (by omega)]
  rw [getD_skip (EC_WRITE_U32 (setIpFlags req)) _ 4 (18 + j - 4)
    (EC_WRITE_U32_length _) (by omega)]
  rw [getD_skip (macSeg req) _ 6 (18 + j - 4 - 4) (macSeg_length _) (by omega)]
  rw [getD_skip (ipSeg req) _ 4 (18 + j - 4 - 4 - 6) (ipSeg_length _) (by omega)]
  rw [show 18 + j - 4 - 4 - 6 - 4 = j by omega]
  exact List.getD_append _ _ _ _ (by rw [subnetSeg_length]; omega)

theorem set_ip_data_getD_gateway (req : EoeRequest) (j : Nat) (hj : j < 4) :
    (ec_fsm_eoe_set_ip_data req).getD (22 + j) 0 = (gatewaySeg req).getD j 0 := by
  unfold ec_fsm_eoe_set_ip_data
  rw [getD_skip setIpHeadBytes _ 4 (22 + j) rfl (by omega)]
  rw [getD_skip (EC_WRITE_U32 (setIpFlags req)) _ 4 (22 + j - 4)
    (EC_WRITE_U32_length _) (by omega)]
  rw [getD_skip (macSeg req) _ 6 (22 + j - 4 - 4) (macSeg_length _) (by omega)]
  rw [getD_skip (ipSeg req) _ 4 (22 + j - 4 - 4 - 6) (ipSeg_length _) (by omega)]
  rw [getD_skip (subnetSeg req) _ 4 (22 + j - 4 - 4 - 6 - 4)
    (subnetSeg_length _) (by omega)]
  rw [show 22 + j - 4 - 4 - 6 - 4 - 4 = j by omega]
  exact List.getD_append _ _ _ _ (by rw [gatewaySeg_length]; omega)

theorem set_ip_data_getD_dns (req : EoeRequest) (j : Nat) (hj : j < 4) :
    (ec_fsm_eoe_set_ip_data req).getD (26 + j) 0 = (dnsSeg req).getD j 0 := by
  unfold ec_fsm_eoe_set_ip_data
  rw [getD_skip setIpHeadBytes _ 4 (26 + j) rfl (by omega)]
  rw [getD_skip (EC_WRITE_U32 (setIpFlags req)) _ 4 (26 + j - 4)
    (EC_WRITE_U32_length _) (by omega)]
  rw [getD_skip (macSeg req) _ 6 (26 + j - 4 - 4) (macSeg_length _) (by omega)]
  rw [getD_skip (ipSeg req) _ 4 (26 + j - 4 - 4 - 6) (ipSeg_length _) (by omega)]
  rw [getD_skip (subnetSeg req) _ 4 (26 + j - 4 - 4 - 6 - 4)
    (subnetSeg_length _) (by omega)]
  rw [getD_skip (gatewaySeg req) _ 4 (26 + j - 4 - 4 - 6 - 4 - 4)
    (gatewaySeg_length _) (by omega)]
  rw [show 26 + j - 4 - 4 - 6 - 4 - 4 - 4 = j by omega]
  exact List.getD_append _ _ _ _ (by rw [dnsSeg_length]; omega)

theorem set_ip_data_getD_name (req : EoeRequest) (j : Nat) (hj : j < 32) :
    (ec_fsm_eoe_set_ip_data req).getD (30 + j) 0 = (nameSeg req).getD j 0 := by
  unfold ec_fsm_eoe_set_ip_data
  rw [getD_skip setIpHeadBytes _ 4 (30 + j) rfl (by omega)]
  rw [getD_skip (EC_WRITE_U32 (setIpFlags req)) _ 4 (30 + j - 4)
    (EC_WRITE_U32_length _) (by omega)]
  rw [getD_skip (macSeg req) _ 6 (30 + j - 4 - 4) (macSeg_length _) (by omega)]
  rw [getD_skip (ipSeg req) _ 4 (30 + j - 4 - 4 - 6) (ipSeg_length _) (by omega)]
  rw [getD_skip (subnetSeg req) _ 4 (30 + j - 4 - 4 - 6 - 4)
    (subnetSeg_length _) (by omega)]
  rw [getD_skip (gatewaySeg req) _ 4 (30 + j - 4 - 4 - 6 - 4 - 4)
    (gatewaySeg_length _) (by omega)]
  rw [getD_skip (dnsSeg req) _ 4 (30 + j - 4 - 4 - 6 - 4 - 4 - 4)
    (dnsSeg_length _) (by omega)]
  rw [show 30 + j - 4 - 4 - 6 - 4 - 4 - 4 - 4 = j by omega]

theorem setIpHeadBytes_length : setIpHeadBytes.length = 4 := rfl

/-! ### Claim C6 -/

/-- Claim C6: request encoding layout and zero-fill.  The encoded payload has
`8 + ETH_ALEN + 4*4 + EC_MAX_HOSTNAME_SIZE` bytes; byte 0 is the
SET_IP_REQUEST frame type; bytes 1..4 are zero; bytes 4..8 hold the
little-endian inclusion bitmask with bits 0..5 set exactly when
mac/ip/subnet/gateway/dns/name are included; the MAC occupies bytes 8..14
verbatim when included; each 32-bit field occupies its fixed 4-byte slot
byte-reversed when included; the hostname occupies the final
`EC_MAX_HOSTNAME_SIZE` bytes verbatim when included; and every byte of a
field whose included flag is false is zero. -/
theorem ec_fsm_eoe_set_ip_data_layout (req : EoeRequest) :
    (ec_fsm_eoe_set_ip_data req).length =
      8 + ETH_ALEN + 4 * 4 + EC_MAX_HOSTNAME_SIZE ∧
    (ec_fsm_eoe_set_ip_data req).getD 0 0 = EC_EOE_FRAMETYPE_SET_IP_REQ ∧
    (∀ j, 1 ≤ j → j < 4 → (ec_fsm_eoe_set_ip_data req).getD j 0 = 0) ∧
    ((ec_fsm_eoe_set_ip_data req).drop 4).take 4 =
      EC_WRITE_U32 (setIpFlags req) ∧
    ((setIpFlags req).testBit 0 = req.mac_address_included ∧
     (setIpFlags req).testBit 1 = req.ip_address_included ∧
     (setIpFlags req).testBit 2 = req.subnet_mask_included ∧
     (setIpFlags req).testBit 3 = req.gateway_included ∧
     (setIpFlags req).testBit 4 = req.dns_included ∧
     (setIpFlags req).testBit 5 = req.name_included) ∧
    (∀ j, j < ETH_ALEN → (ec_fsm_eoe_set_ip_data req).getD (8 + j) 0 =
      if req.mac_address_included then req.mac_address.getD j 0 else 0) ∧
    (∀ j, j < 4 → (ec_fsm_eoe_set_ip_data req).getD (14 + j) 0 =
      if req.ip_address_included then req.ip_address.getD (3 - j) 0 else 0) ∧
    (∀ j, j < 4 → (ec_fsm_eoe_set_ip_data req).getD (18 + j) 0 =
      if req.subnet_mask_included then req.subnet_mask.getD (3 - j) 0 else 0) ∧
    (∀ j, j < 4 → (ec_fsm_eoe_set_ip_data req).getD (22 + j) 0 =
      if req.gateway_included then req.gateway.getD (3 - j) 0 else 0) ∧
    (∀ j, j < 4 → (ec_fsm_eoe_set_ip_data req).getD (26 + j) 0 =
      if req.dns_included then req.dns.getD (3 - j) 0 else 0) ∧
    (∀ j, j < EC_MAX_HOSTNAME_SIZE →
      (ec_fsm_eoe_set_ip_data req).getD (30 + j) 0 =
      if req.name_included then req.name.getD j 0 else 0) := by
  refine ⟨?_, rfl, ?_, ?_, ?_, ?_, ?_, ?_, ?_, ?_, ?_⟩
  · simp only [ec_fsm_eoe_set_ip_data, List.length_append,
      setIpHeadBytes_length, EC_WRITE_U32_length, macSeg_length, ipSeg_length,
      subnetSeg_length, gatewaySeg_length, dnsSeg_length, nameSeg_length]
    decide
  · intro j h1 h4
    interval_cases j <;> rfl
  · show ((ec_fsm_eoe_set_ip_data req).drop 4).take 4 = _
    unfold ec_fsm_eoe_set_ip_data
    rw [List.drop_left' setIpHeadBytes_length]
    rw [List.take_left' (EC_WRITE_U32_length (setIpFlags req))]
  · cases hm : req.mac_address_included <;>
      cases hi : req.ip_address_included <;>
      cases hs : req.subnet_mask_included <;>
      cases hg : req.gateway_included <;>
      cases hd2 : req.dns_included <;>
      cases hn : req.name_included <;>
      simp only [setIpFlags, hm, hi, hs, hg, hd2, hn] <;> decide
  · intro j hj
    rw [set_ip_data_getD_mac req j hj, macSeg_getD req j hj]
  · intro j hj
    rw [set_ip_data_getD_ip req j hj, ipSeg_getD req j hj]
  · intro j hj
    rw [set_ip_data_getD_subnet req j hj, subnetSeg_getD req j hj]
  · intro j hj
    rw [set_ip_data_getD_gateway req j hj, gatewaySeg_getD req j hj]
  · intro j hj
    rw [set_ip_data_getD_dns req j hj, dnsSeg_getD req j hj]
  · intro j hj
    rw [set_ip_data_getD_name req j hj, nameSeg_getD req j hj]

/-- Concrete request for the C6 witness: MAC, IP, gateway and hostname
included; subnet mask and DNS omitted. -/
def reqC6 : EoeRequest :=
  { mac_address := [17, 34, 51, 68, 85, 102], mac_address_included := true
    ip_address := [192, 0, 2, 10], ip_address_included := true
    subnet_mask := [255, 255, 255, 0], subnet_mask_included := false
    gateway := [192, 0, 2, 1], gateway_included := true
    dns := [8, 8, 8, 8], dns_included := false
    name := List.replicate 32 104, name_included := true
    result := 0, jiffies_sent := 0 }

/-- Witness for C6 at `reqC6`: total length 62; frame type 2 at byte 0;
reserved byte zero; flag bits for included (ip) and omitted (dns) fields;
first MAC byte verbatim at offset 8; reversed first IP byte (10, the last
stored byte) at offset 14; zero at offset 18 (subnet omitted); reversed
gateway byte at offset 22; zero at offset 26 (DNS omitted); hostname byte at
offset 30. -/
theorem ec_fsm_eoe_set_ip_data_layout_witness :
    (ec_fsm_eoe_set_ip_data reqC6).length = 62 ∧
    (ec_fsm_eoe_set_ip_data reqC6).getD 0 0 = 2 ∧
    (ec_fsm_eoe_set_ip_data reqC6).getD 1 0 = 0 ∧
    (setIpFlags reqC6).testBit 1 = true ∧
    (setIpFlags reqC6).testBit 4 = false ∧
    (ec_fsm_eoe_set_ip_data reqC6).getD 8 0 = 17 ∧
    (ec_fsm_eoe_set_ip_data reqC6).getD 14 0 = 10 ∧
    (ec_fsm_eoe_set_ip_data reqC6).getD 18 0 = 0 ∧
    (ec_fsm_eoe_set_ip_data reqC6).getD 22 0 = 1 ∧
    (ec_fsm_eoe_set_ip_data reqC6).getD 26 0 = 0 ∧
    (ec_fsm_eoe_set_ip_data reqC6).getD 30 0 = 104 := by
  have h := ec_fsm_eoe_set_ip_data_layout reqC6
  refine ⟨h.1, h.2.1, h.2.2.1 1 (by decide) (by decide), h.2.2.2.2.1.2.1,
    h.2.2.2.2.1.2.2.2.2.1, ?_, ?_, ?_, ?_, ?_, ?_⟩
  · exact h.2.2.2.2.2.1 0 (by decide)
  · exact h.2.2.2.2.2.2.1 0 (by decide)
  · exact h.2.2.2.2.2.2.2.1 0 (by decide)
  · exact h.2.2.2.2.2.2.2.2.1 0 (by decide)
  · exact h.2.2.2.2.2.2.2.2.2.1 0 (by decide)
  · exact h.2.2.2.2.2.2.2.2.2.2 0 (by decide)
